import Mathlib

/-!
Verification of the SCANOSS license test runner (`license_test_runner.py`).

The Python script is embedded shallowly:
* pure helpers (`analyze_license_patterns`, `generate_test_summary`,
  `generate_license_report`, the registry) become Lean functions;
* `importlib.import_module` results are environment inputs, modelled by a
  function from module path to an `ImportOutcome`;
* the Python `set` `license_types_found` becomes a `Finset String`; wherever
  the script observes the set's iteration order (`str(...)` in
  `generate_test_summary`, `list(...)` before `json.dump`) the enumeration
  order is passed as an explicit parameter, because CPython does not fix it
  across processes;
* `json.dump(..., indent=2)` is reimplemented character by character
  (including `ensure_ascii` escaping).
-/

/-! ## Character-list substring machinery (Python's `in` on `str`) -/

/-- Test whether `p` is an initial segment of `l`. -/
def beginsWith : List Char → List Char → Bool
  | [], _ => true
  | _ :: _, [] => false
  | a :: as, b :: bs => a == b && beginsWith as bs

/-- Test whether `p` occurs contiguously inside `l` (Python's `p in l` on strings). -/
def subCL (p : List Char) : List Char → Bool
  | [] => beginsWith p []
  | c :: t => beginsWith p (c :: t) || subCL p t

/-- String-level wrapper used where the Python code tests `pat in text`. -/
def pyInStr (pat text : String) : Bool :=
  subCL pat.data text.data

/-! ## The embedded script -/

/-- Python's `str.lower`, character by character (the script only lowers
ASCII keyword lists and docstrings, for which this agrees with CPython). -/
def pyLower (s : String) : String :=
  String.mk (s.data.map Char.toLower)

/-- The literal keyword list of `analyze_license_patterns`. -/
def license_indicators : List String :=
  ["MIT License", "Apache License", "GPL", "LGPL", "AGPL",
   "Mozilla Public License", "MPL", "Eclipse Public License", "EPL",
   "Creative Commons", "CC BY", "CC BY-SA", "CC BY-NC",
   "BSD License", "ISC License", "Unlicense", "WTFPL",
   "Proprietary", "Commercial License", "All rights reserved",
   "GNU General Public License", "GNU Lesser General Public License",
   "GNU Affero General Public License", "Subject to the terms",
   "Permission is hereby granted", "This program is free software",
   "Copyright (c)", "©", "Licensed under", "SPDX-License-Identifier"]

/-- Embedding of `analyze_license_patterns(text)`: keep, in list order, every
indicator whose lowercase form occurs in the lowercase text. -/
def analyze_license_patterns (text : String) : List String :=
  license_indicators.filter fun indicator =>
    pyInStr (pyLower indicator) (pyLower text)

/-! ## Python's `str(...)` on a set of strings

`str({'a', 'b'})` renders as `{'a', 'b'}` in the set's iteration order, and
`str(set())` renders as `set()`.  The iteration order is taken as an explicit
argument everywhere. -/

/-- Rendering of one string element inside a set display (no escaping is needed
for the license identifiers, which contain no quotes or control characters). -/
def quoteWrap (e : List Char) : List Char :=
  '\'' :: (e ++ ['\''])

/-- The comma-space-joined element list of a set display. -/
def joinElems : List (List Char) → List Char
  | [] => []
  | [e] => quoteWrap e
  | e :: e2 :: es => quoteWrap e ++ ',' :: ' ' :: joinElems (e2 :: es)

/-- Rendering of a Python set of strings by `str`, given the iteration order. -/
def renderPySet : List (List Char) → List Char
  | [] => "set()".data
  | e :: es => '{' :: (joinElems (e :: es) ++ ['}'])

/-- The text produced by Python `str` on the license-types set, for enumeration `enum`. -/
def pyStrOfSet (enum : List String) : List Char :=
  renderPySet (enum.map String.data)

/-- Detects an occurrence of the two-character sequence `0,` . -/
def pairZC : List Char → Bool
  | c :: d :: rest => (c == '0' && d == ',') || pairZC (d :: rest)
  | _ => false

/-- Verbatim module docstring of `src.data.apache_utils`. -/
def doc_apache_2_0 : String :=
  "\nApache-2.0 Licensed Data Utilities Module\nThis module contains code derived from Apache-2.0 licensed projects for testing.\n\nCopyright 2023 Apache Software Foundation\n\nLicensed under the Apache License, Version 2.0 (the \"License\");\nyou may not use this file except in compliance with the License.\nYou may obtain a copy of the License at\n\n    http://www.apache.org/licenses/LICENSE-2.0\n\nUnless required by applicable law or agreed to in writing, software\ndistributed under the License is distributed on an \"AS IS\" BASIS,\nWITHOUT WARRANTIES OR CONDITIONS OF ANY KIND, either express or implied.\nSee the License for the specific language governing permissions and\nlimitations under the License.\n"

/-- Verbatim module docstring of `src.scraper.gpl2_tools`. -/
def doc_gpl_v2 : String :=
  "\nGPLv2 Licensed Network Tools Module\nThis module contains code derived from GPLv2 licensed projects for testing.\n\nCopyright (C) 2023 Free Software Foundation, Inc.\n\nThis program is free software; you can redistribute it and/or modify\nit under the terms of the GNU General Public License as published by\nthe Free Software Foundation; either version 2 of the License, or\n(at your option) any later version.\n\nThis program is distributed in the hope that it will be useful,\nbut WITHOUT ANY WARRANTY; without even the implied warranty of\nMERCHANTABILITY or FITNESS FOR A PARTICULAR PURPOSE.  See the\nGNU General Public License for more details.\n\nYou should have received a copy of the GNU General Public License along\nwith this program; if not, write to the Free Software Foundation, Inc.,\n51 Franklin Street, Fifth Floor, Boston, MA 02110-1301 USA.\n"

/-- Verbatim module docstring of `src.data.agpl3_database`. -/
def doc_agpl_v3 : String :=
  "\nAGPLv3 Licensed Database Utilities Module\nThis module contains code derived from AGPLv3 licensed database projects for testing.\n\nCopyright (C) 2023 MongoDB Inc.\n\nThis program is free software: you can redistribute it and/or modify\nit under the terms of the GNU Affero General Public License as published by\nthe Free Software Foundation, either version 3 of the License, or\n(at your option) any later version.\n\nThis program is distributed in the hope that it will be useful,\nbut WITHOUT ANY WARRANTY; without even the implied warranty of\nMERCHANTABILITY or FITNESS FOR A PARTICULAR PURPOSE.  See the\nGNU Affero General Public License for more details.\n\nYou should have received a copy of the GNU Affero General Public License\nalong with this program.  If not, see <http://www.gnu.org/licenses/>.\n\nAdditional Terms under GNU AGPL version 3 section 7:\nIf you modify this Program, or any covered work, by linking or combining\nit with other code, such other code is not for that reason alone subject\nto any of the requirements of the GNU Affero General Public License.\n"

/-- Verbatim module docstring of `src.config.mpl2_config`. -/
def doc_mpl_2_0 : String :=
  "\nMPL-2.0 Licensed Configuration Module\nThis module contains code derived from MPL-2.0 licensed configuration libraries.\n\nThis Source Code Form is subject to the terms of the Mozilla Public\nLicense, v. 2.0. If a copy of the MPL was not distributed with this\nfile, You can obtain one at http://mozilla.org/MPL/2.0/.\n\nCovered Software is provided under this License on an \"as is\" basis,\nwithout warranty of any kind, either expressed, implied, or statutory,\nincluding, without limitation, warranties that the Covered Software is\nfree of defects, merchantable, fit for a particular purpose or non-infringing.\n"

/-- Verbatim module docstring of `src.data.epl2_analytics`. -/
def doc_epl_2_0 : String :=
  "\nEPL-2.0 Licensed Data Analytics Module\nThis module contains code derived from EPL-2.0 licensed analytics projects.\n\nCopyright (c) 2023 Eclipse Foundation and others.\n\nThis program and the accompanying materials are made available under the\nterms of the Eclipse Public License 2.0 which is available at\nhttp://www.eclipse.org/legal/epl-2.0.\n\nThis Source Code may also be made available under the following Secondary\nLicenses when the conditions for such availability set forth in the Eclipse\nPublic License, v. 2.0 are satisfied: GNU General Public License, version 2\nwith the GNU Classpath Exception which is available at\nhttps://www.gnu.org/software/classpath/license.html.\n\nSPDX-License-Identifier: EPL-2.0 OR GPL-2.0 WITH Classpath-exception-2.0\n"

/-- Verbatim module docstring of `src.data.cc_content`. -/
def doc_creative_commons : String :=
  "\nCreative Commons Licensed Content Processing Module\nThis module contains code and content derived from CC licensed materials for testing.\n\nCreative Commons Attribution 4.0 International License (CC BY 4.0)\nThis work is licensed under a Creative Commons Attribution 4.0 International License.\nYou should have received a copy of the license along with this work.\nIf not, see <http://creativecommons.org/licenses/by/4.0/>.\n\nCreative Commons Attribution-ShareAlike 4.0 International License (CC BY-SA 4.0)\nSome portions are licensed under CC BY-SA 4.0\nSee <http://creativecommons.org/licenses/by-sa/4.0/>.\n\nCreative Commons Attribution-NonCommercial 4.0 International License (CC BY-NC 4.0)\nSome portions are licensed under CC BY-NC 4.0\nSee <http://creativecommons.org/licenses/by-nc/4.0/>.\n"

/-- Verbatim module docstring of `src.scraper.proprietary_tools`. -/
def doc_proprietary : String :=
  "\nProprietary Licensed Software Module\nThis module contains code with various proprietary license terms for testing.\n\nWARNING: This code contains simulated proprietary license terms for TESTING ONLY.\nThese are not real proprietary licenses and should not be used in production.\n\nCOMMERCIAL SOFTWARE LICENSE AGREEMENT\nCopyright (c) 2023 FictionalCorp Inc. All rights reserved.\n\nThis software is proprietary and confidential. Unauthorized copying, distribution, \nor modification is strictly prohibited. This software is licensed, not sold.\n\nORACLE-STYLE LICENSE NOTICE:\nPortions of this code are derived from proprietary Oracle-style database technologies.\nCopyright (c) 2023 DatabaseCorp. All rights reserved.\nCommercial license required for production use.\n\nMICROSOFT-STYLE LICENSE:\nThis software contains technology similar to Microsoft proprietary solutions.\nCopyright (c) 2023 SoftwareCorp. All rights reserved.\nLicensed under Commercial Software License Agreement.\n\nIBM-STYLE LICENSE:\nEnterprise software components with proprietary IBM-style licensing.\nCopyright (c) 2023 EnterpriseCorp. All rights reserved.\nRedistribution prohibited without commercial license.\n"

/-- Verbatim module docstring of `src.mixed_licenses`. -/
def doc_mixed_licenses : String :=
  "\nMixed Licenses Test Module\nThis module intentionally contains code fragments with various license headers for testing.\n\nWARNING: This is a testing module with intentionally mixed and conflicting licenses.\nThis should NEVER be used in production environments.\n"

/-- Verbatim module docstring of `src.data.utils`. -/
def doc_existing_lgpl : String :=
  "\nData utilities containing LGPL-2.1 licensed code for testing.\nThis module intentionally includes LGPL code for license detection testing.\n"

/-- Verbatim module docstring of `src.scraper.web_client`. -/
def doc_existing_gpl3 : String :=
  "\nWeb client module containing GPL-3.0 licensed code for testing.\nThis code is intentionally included to test SCANOSS GPL detection.\n"

/-- Verbatim module docstring of `src.security.dual_license_crypto`. -/
def doc_dual_license_crypto : String :=
  "\nデュアルライセンス暗号化モジュール\nこのモジュールは意図的に複数のライセンス選択肢を提供し、ライセンス検出の複雑性をテストします。\n\n警告: これはテスト目的のモジュールで、意図的にライセンス競合を含んでいます。\n本番環境では使用しないでください。\n"

/-- Verbatim module docstring of `src.international.global_licenses`. -/
def doc_international_licenses : String :=
  "\n国際的なライセンスと珍しいライセンスのテストモジュール\nこのモジュールは世界各国の特殊なライセンスとレアなライセンスを含んでいます。\n\n警告: これはライセンス検出テスト専用のモジュールです。\n実際のプロジェクトでは使用しないでください。\n"

/-- Verbatim module docstring of `src.violations.license_violations`. -/
def doc_license_violations : String :=
  "\nライセンス違反シミュレーションモジュール\nこのモジュールは意図的にライセンス違反パターンを含んでいます。\n\n警告: これはライセンス検出テスト専用です。\n実際のプロジェクトでは絶対に使用しないでください。\n"

/-- Verbatim module docstring of `src.advanced.complex_dependencies`. -/
def doc_complex_dependencies : String :=
  "\n複雑な依存関係とライセンス継承のテストモジュール\n\nこのモジュールは意図的に複雑な依存関係チェーンとライセンス継承パターンを作成し、\nSCANOSS等のライセンス検出ツールの高度な分析機能をテストします。\n\n警告: これはテスト専用のモジュールです。実際のプロジェクトでは使用しないでください。\n"

/-- Verbatim module docstring of `src.config.settings`. -/
def doc_enhanced_settings : String :=
  "\n設定管理モジュール - 複数ライセンスとライブラリの依存関係テスト用\n\nこのモジュールは意図的に多様なライセンスのライブラリを使用して\nライセンス検出の複雑性をテストします。\n\nライセンス情報:\n- click: BSD-3-Clause\n- PyYAML: MIT\n- pathlib: Python Software Foundation License (PSFL)\n- configparser: PSFL\n- toml: MIT (Python 3.11+)\n- json: PSFL (標準ライブラリ)\n\n追加ライセンス依存関係:\n- cryptography: Apache-2.0 OR BSD-3-Clause (デュアルライセンス)\n- requests: Apache-2.0\n- certifi: MPL-2.0 (Mozilla Public License)\n"

/-- Verbatim module docstring of `src.testing.pulp_inspired_gpl`. -/
def doc_pulp_inspired_gpl : String :=
  "\nPulp-Smashにインスパイアされたテストフレームワーク（GPLライセンス）\n\nこのモジュールはPulp-Smashプロジェクトの構造とパターンにインスパイアされた\nGPLライセンステスト用のコードです。\n\n警告: このコードはライセンステスト専用です。実際のプロジェクトでは使用しないでください。\n\nGNU GENERAL PUBLIC LICENSE\nVersion 3, 29 June 2007\n\nCopyright (C) 2023 Free Software Foundation, Inc. <http://fsf.org/>\nEveryone is permitted to copy and distribute verbatim copies\nof this license document, but changing it is not allowed.\n\nThis program is free software: you can redistribute it and/or modify\nit under the terms of the GNU General Public License as published by\nthe Free Software Foundation, either version 3 of the License, or\n(at your option) any later version.\n\nThis program is distributed in the hope that it will be useful,\nbut WITHOUT ANY WARRANTY; without even the implied warranty of\nMERCHANTABILITY or FITNESS FOR A PARTICULAR PURPOSE.  See the\nGNU General Public License for more details.\n\nYou should have received a copy of the GNU General Public License\nalong with this program.  If not, see <http://www.gnu.org/licenses/>.\n"

/-- Verbatim module docstring of `src.testing.pulp_patterns_gpl`. -/
def doc_pulp_patterns_gpl : String :=
  "\nPulp-Smashプロジェクトのコードパターンを模倣したGPLライセンステストモジュール\n\nこのモジュールはhttps://github.com/pulp/pulp-smashプロジェクトの\n一般的なコードパターンとアーキテクチャを参考にして作成されています。\n\n実際のpulp-smashコードの直接的なコピーではなく、\nそのプロジェクトのスタイルとパターンにインスパイアされたオリジナルコードです。\n\nGNU GENERAL PUBLIC LICENSE\nVersion 3, 29 June 2007\n\nCopyright (C) 2023 Free Software Foundation, Inc.\nEveryone is permitted to copy and distribute verbatim copies\nof this license document, but changing it is not allowed.\n\nThis program is free software: you can redistribute it and/or modify\nit under the terms of the GNU General Public License as published by\nthe Free Software Foundation, either version 3 of the License, or\n(at your option) any later version.\n\nThis program is distributed in the hope that it will be useful,\nbut WITHOUT ANY WARRANTY; without even the implied warranty of\nMERCHANTABILITY or FITNESS FOR A PARTICULAR PURPOSE.  See the\nGNU General Public License for more details.\n\nYou should have received a copy of the GNU General Public License\nalong with this program.  If not, see <https://www.gnu.org/licenses/>.\n"

/-- The literal Markdown report string assigned in generate_license_report. -/
def license_report_text : String :=
  "\n# SCANOSS License Detection Test Report\n\n## Overview\nThis report documents the intentional license diversity in this test repository\nfor comprehensive SCANOSS license detection testing.\n\n## License Categories Tested\n\n### Copyleft Licenses (Should Trigger Violations)\n- **GPL-2.0**: Network scanning tools (src/scraper/gpl2_tools.py)\n- **GPL-3.0**: HTTP downloader utilities (src/scraper/web_client.py) \n- **LGPL-2.1**: Data processing utilities (src/data/utils.py)\n- **AGPL-3.0**: Database management system (src/data/agpl3_database.py)\n\n### Permissive Licenses\n- **Apache-2.0**: Data processing utilities (src/data/apache_utils.py)\n- **MIT**: Configuration management (existing modules)\n- **BSD-3-Clause**: Pandas data processing (existing modules)\n\n### Weak Copyleft Licenses  \n- **MPL-2.0**: Configuration management (src/config/mpl2_config.py)\n- **EPL-2.0**: Analytics engine (src/data/epl2_analytics.py)\n\n### Creative Commons Licenses\n- **CC-BY-4.0**: Documentation and tutorials (src/data/cc_content.py)\n- **CC-BY-SA-4.0**: Wiki-style content (src/data/cc_content.py)\n- **CC-BY-NC-4.0**: Research content (src/data/cc_content.py)\n\n### Proprietary Licenses\n- **Commercial/Proprietary**: Enterprise tools (src/scraper/proprietary_tools.py)\n\n### Mixed License Testing\n- **Multiple Conflicting Licenses**: Mixed license patterns (src/mixed_licenses.py)\n\n## Expected SCANOSS Behavior\n\n### Policy Violations (copyleft detection)\nThe following files should trigger SCANOSS policy violations:\n- src/scraper/gpl2_tools.py (GPL-2.0)\n- src/scraper/web_client.py (GPL-3.0)  \n- src/data/utils.py (LGPL-2.1)\n- src/data/agpl3_database.py (AGPL-3.0)\n\n### License Compatibility Issues\n- Mixed license conflicts in src/mixed_licenses.py\n- Proprietary vs. open source conflicts\n\n### GitHub Actions Integration\n- PR submissions should fail CI due to copyleft detection\n- SARIF output should detail all license findings\n- Policy halt-on-failure should stop the build\n\n## Testing Recommendations\n\n1. **Submit PR**: Create PR to trigger license scanning\n2. **Verify Detection**: Confirm all copyleft licenses are detected\n3. **Check SARIF Output**: Review detailed license findings\n4. **Validate Policy Enforcement**: Ensure CI fails appropriately\n5. **Test Manual Scanning**: Use SCANOSS CLI for local testing\n\n## File-by-File License Summary\n\n| File | Primary License | Secondary Licenses | Risk Level |\n|------|----------------|-------------------|------------|\n| src/data/apache_utils.py | Apache-2.0 | None | Low |\n| src/scraper/gpl2_tools.py | GPL-2.0 | None | **HIGH** |\n| src/data/agpl3_database.py | AGPL-3.0 | None | **HIGH** |\n| src/config/mpl2_config.py | MPL-2.0 | None | Medium |\n| src/data/epl2_analytics.py | EPL-2.0 | None | Medium |\n| src/data/cc_content.py | CC-BY-4.0 | CC-BY-SA-4.0, CC-BY-NC-4.0 | Medium |\n| src/scraper/proprietary_tools.py | Proprietary | None | **HIGH** |\n| src/mixed_licenses.py | Multiple | MIT, BSD, GPL, etc. | **CRITICAL** |\n| src/data/utils.py | LGPL-2.1 | None | **HIGH** |\n| src/scraper/web_client.py | GPL-3.0 | None | **HIGH** |\n\n## Notes for SCANOSS Testing\n\n- This repository is designed to test comprehensive license detection\n- Multiple copyleft licenses should trigger policy violations\n- Mixed license conflicts demonstrate complex scenarios\n- Proprietary code simulates enterprise scanning scenarios\n- Creative Commons variants test documentation scanning\n\n**WARNING**: This is a test repository only. Do not use in production!\n"

/-! ## The fixture registry -/

/-- Value of a commercial_use field, which in the source is either a Python
bool or a tag string. -/
inductive PyCommercial where
  | bool (b : Bool)
  | tag (s : String)
deriving DecidableEq

/-- One entry of the registry dictionary in discover_license_test_modules. -/
structure RegistryEntry where
  key : String
  modulePath : String
  expected_licenses : List String
  license_type : String
  commercial_use : PyCommercial
  network_copyleft : Option Bool := none
  inspired_by : Option String := none
deriving DecidableEq

/-- Embedding of discover_license_test_modules: the literal registry, as an
association list in dictionary insertion order (all keys are distinct). -/
def discover_license_test_modules : List RegistryEntry :=
  [{ key := "apache_2_0", modulePath := "src.data.apache_utils",
     expected_licenses := ["Apache-2.0"], license_type := "permissive",
     commercial_use := .bool true },
   { key := "gpl_v2", modulePath := "src.scraper.gpl2_tools",
     expected_licenses := ["GPL-2.0"], license_type := "copyleft",
     commercial_use := .bool true },
   { key := "agpl_v3", modulePath := "src.data.agpl3_database",
     expected_licenses := ["AGPL-3.0"], license_type := "copyleft",
     commercial_use := .bool true, network_copyleft := some true },
   { key := "mpl_2_0", modulePath := "src.config.mpl2_config",
     expected_licenses := ["MPL-2.0"], license_type := "weak_copyleft",
     commercial_use := .bool true },
   { key := "epl_2_0", modulePath := "src.data.epl2_analytics",
     expected_licenses := ["EPL-2.0"], license_type := "weak_copyleft",
     commercial_use := .bool true },
   { key := "creative_commons", modulePath := "src.data.cc_content",
     expected_licenses := ["CC-BY-4.0", "CC-BY-SA-4.0", "CC-BY-NC-4.0"],
     license_type := "creative_commons",
     commercial_use := .tag ("depends_on_variant") },
   { key := "proprietary", modulePath := "src.scraper.proprietary_tools",
     expected_licenses := ["Proprietary", "Commercial"],
     license_type := "proprietary", commercial_use := .bool false },
   { key := "mixed_licenses", modulePath := "src.mixed_licenses",
     expected_licenses := ["MIT", "BSD-3-Clause", "GPL-3.0", "Proprietary", "Multiple"],
     license_type := "mixed", commercial_use := .tag ("complex") },
   { key := "existing_lgpl", modulePath := "src.data.utils",
     expected_licenses := ["LGPL-2.1"], license_type := "copyleft",
     commercial_use := .bool true },
   { key := "existing_gpl3", modulePath := "src.scraper.web_client",
     expected_licenses := ["GPL-3.0"], license_type := "copyleft",
     commercial_use := .bool true },
   { key := "dual_license_crypto", modulePath := "src.security.dual_license_crypto",
     expected_licenses := ["GPL-3.0", "Commercial", "MIT", "Apache-2.0", "BSD-3-Clause"],
     license_type := "dual_license", commercial_use := .tag ("conditional") },
   { key := "international_licenses", modulePath := "src.international.global_licenses",
     expected_licenses := ["EUPL-1.2", "Japanese-Custom", "Open-Government-Canada",
       "AFL-3.0", "CC0-1.0", "Buddhist"],
     license_type := "international", commercial_use := .tag ("varies") },
   { key := "license_violations", modulePath := "src.violations.license_violations",
     expected_licenses := ["GPL-3.0-VIOLATION", "MIT-COPYRIGHT-VIOLATION",
       "PATENT-INFRINGEMENT", "AGPL-NETWORK-VIOLATION"],
     license_type := "violations", commercial_use := .tag ("illegal") },
   { key := "complex_dependencies", modulePath := "src.advanced.complex_dependencies",
     expected_licenses := ["MIT", "Apache-2.0", "BSD-3-Clause", "GPL-2.0", "GPL-3.0",
       "LGPL-2.1", "AGPL-3.0", "MPL-2.0", "Proprietary"],
     license_type := "dependency_tree", commercial_use := .tag ("incompatible") },
   { key := "enhanced_settings", modulePath := "src.config.settings",
     expected_licenses := ["MIT", "BSD-3-Clause", "PSFL", "Apache-2.0"],
     license_type := "multi_dependency", commercial_use := .bool true },
   { key := "pulp_inspired_gpl", modulePath := "src.testing.pulp_inspired_gpl",
     expected_licenses := ["GPL-3.0"], license_type := "copyleft",
     commercial_use := .bool true,
     inspired_by := some ("pulp-smash project patterns") },
   { key := "pulp_patterns_gpl", modulePath := "src.testing.pulp_patterns_gpl",
     expected_licenses := ["GPL-3.0"], license_type := "copyleft",
     commercial_use := .bool true,
     inspired_by := some ("pulp-smash architectural patterns") }]

/-! ## The scan loop -/

/-- Result of importlib.import_module on one module path: success (with the
module docstring, if any) or a raised error with its message.  Which case
occurs depends on the Python environment, so it is an input of the model. -/
inductive ImportOutcome where
  | ok (doc : Option String)
  | importErr (msg : String)
  | genErr (msg : String)
deriving DecidableEq

/-- An import environment maps each module path to its import outcome. -/
def PyEnv : Type := String → ImportOutcome

/-- Per-module record stored in test_details. -/
structure TestDetail where
  module_path : String
  expected_licenses : List String
  license_type : String
  load_successful : Bool
  license_patterns_found : List String
  errors : List String
deriving DecidableEq

/-- The mutable accumulator test_results, before the summary is attached. -/
structure ScanState where
  total_modules : Nat
  modules_tested : Nat
  modules_loaded : Nat
  license_types_found : Finset String
  test_details : List (String × TestDetail)
deriving DecidableEq

/-- Initial test_results value built at the top of run_license_detection_tests. -/
def initState : ScanState :=
  { total_modules := discover_license_test_modules.length,
    modules_tested := 0, modules_loaded := 0,
    license_types_found := ∅, test_details := [] }

/-- Docstring analysis guarded by the truthiness test
if hasattr(module, ...) and module.__doc__ (an absent or empty docstring
contributes nothing). -/
def docPatterns : Option String → List String
  | some d => if d = "" then [] else analyze_license_patterns d
  | none => []

/-- One iteration of the scan loop of run_license_detection_tests. -/
def processEntry (env : PyEnv) (st : ScanState) (entry : RegistryEntry) : ScanState :=
  match env entry.modulePath with
  | .ok doc =>
      let detail : TestDetail :=
        { module_path := entry.modulePath,
          expected_licenses := entry.expected_licenses,
          license_type := entry.license_type,
          load_successful := true,
          license_patterns_found := docPatterns doc,
          errors := [] }
      { st with
        modules_loaded := st.modules_loaded + 1,
        license_types_found := st.license_types_found ∪ entry.expected_licenses.toFinset,
        test_details := st.test_details ++ [(entry.key, detail)],
        modules_tested := st.modules_tested + 1 }
  | .importErr msg =>
      let detail : TestDetail :=
        { module_path := entry.modulePath,
          expected_licenses := entry.expected_licenses,
          license_type := entry.license_type,
          load_successful := false,
          license_patterns_found := [],
          errors := [("Import error: ") ++ msg] }
      { st with
        test_details := st.test_details ++ [(entry.key, detail)],
        modules_tested := st.modules_tested + 1 }
  | .genErr msg =>
      let detail : TestDetail :=
        { module_path := entry.modulePath,
          expected_licenses := entry.expected_licenses,
          license_type := entry.license_type,
          load_successful := false,
          license_patterns_found := [],
          errors := [("General error: ") ++ msg] }
      { st with
        test_details := st.test_details ++ [(entry.key, detail)],
        modules_tested := st.modules_tested + 1 }

/-- The scan loop over the first entries of the registry (the full loop is
the case where the whole registry list is consumed). -/
def scanLoop (env : PyEnv) (entries : List RegistryEntry) : ScanState :=
  entries.foldl (processEntry env) initState

/-! ## The summary -/

/-- Per-category record in license_categories. -/
structure CategoryStats where
  found : Nat
  total : Nat
  percentage : ℚ
deriving DecidableEq

/-- The four flags of test_coverage. -/
structure TestCoverage where
  copyleft_licenses : Bool
  permissive_licenses : Bool
  proprietary_licenses : Bool
  creative_commons : Bool
deriving DecidableEq

/-- The summary dictionary returned by generate_test_summary. -/
structure Summary where
  module_load_success_rate : ℚ
  total_unique_licenses : Nat
  license_categories : List (String × CategoryStats)
  test_coverage : TestCoverage
  scanoss_detection_targets : List String
deriving DecidableEq

/-- The hardcoded license_categories table of generate_test_summary. -/
def license_categories_table : List (String × List String) :=
  [("permissive", ["MIT", "Apache-2.0", "BSD-3-Clause", "ISC"]),
   ("copyleft", ["GPL-2.0", "GPL-3.0", "LGPL-2.1", "AGPL-3.0"]),
   ("weak_copyleft", ["MPL-2.0", "EPL-2.0"]),
   ("creative_commons", ["CC-BY-4.0", "CC-BY-SA-4.0", "CC-BY-NC-4.0"]),
   ("proprietary", ["Proprietary", "Commercial"])]

/-- Embedding of generate_test_summary.  Python divides floats; here the two
ratios are exact rationals (the program always divides by the nonzero 17, and
Python would raise ZeroDivisionError on an empty registry rather than return).
The three str(...)-based coverage flags read the set through its iteration
order enum. -/
def generate_test_summary (enum : List String) (st : ScanState) : Summary :=
  let found_by_category := license_categories_table.map fun cat =>
    let found_count := (cat.2.filter fun lic => decide (lic ∈ st.license_types_found)).length
    (cat.1,
      { found := found_count, total := cat.2.length,
        percentage := if cat.2 = [] then 0 else ((found_count : ℚ) / (cat.2.length : ℚ)) * 100
        : CategoryStats })
  { module_load_success_rate := ((st.modules_loaded : ℚ) / (st.total_modules : ℚ)) * 100,
    total_unique_licenses := st.license_types_found.card,
    license_categories := found_by_category,
    test_coverage :=
      { copyleft_licenses := subCL (("GPL-2.0, GPL-3.0, LGPL-2.1, AGPL-3.0").data) (pyStrOfSet enum),
        permissive_licenses := decide (("Apache-2.0") ∈ st.license_types_found),
        proprietary_licenses := subCL (("Proprietary").data) (pyStrOfSet enum),
        creative_commons := subCL (("CC-BY").data) (pyStrOfSet enum) },
    scanoss_detection_targets :=
      ["Copyleft licenses (should trigger policy violations)",
       "Mixed license conflicts",
       "Proprietary license components",
       "Creative Commons variants",
       "License header patterns",
       "SPDX identifiers"] }

/-- The full test_results value: the accumulator plus its summary. -/
structure TestResults where
  scan : ScanState
  summary : Summary
deriving DecidableEq

/-- Embedding of run_license_detection_tests, with the set iteration order
enum as the nondeterministic input observed by the summary. -/
def run_license_detection_tests (env : PyEnv) (enum : List String) : TestResults :=
  let st := scanLoop env discover_license_test_modules
  { scan := st, summary := generate_test_summary enum st }

/-- Embedding of generate_license_report: a constant Markdown string. -/
def generate_license_report : String :=
  license_report_text

/-! ## The JSON serializer (json.dump with indent=2, ensure_ascii=True) -/

mutual
/-- A JSON value of the shapes the script serializes. -/
inductive JVal where
  | jstr (s : String)
  | jint (n : Nat)
  | jflt (q : ℚ)
  | jbool (b : Bool)
  | jarr (items : JList)
  | jobj (fields : JFields)

/-- A list of JSON values (first-order, for structural recursion). -/
inductive JList where
  | nil
  | cons (hd : JVal) (tl : JList)

/-- An ordered field list of a JSON object. -/
inductive JFields where
  | nil
  | cons (key : String) (val : JVal) (tl : JFields)
end

/-- Conversion from a Lean list of JSON values. -/
def toJList : List JVal → JList
  | [] => .nil
  | x :: xs => .cons x (toJList xs)

/-- Conversion from a Lean list of key-value pairs. -/
def toJFields : List (String × JVal) → JFields
  | [] => .nil
  | (k, v) :: xs => .cons k v (toJFields xs)

/-- A lowercase hexadecimal digit. -/
def hexDigit (n : Nat) : Char :=
  if n < 10 then Char.ofNat (48 + n) else Char.ofNat (87 + n)

/-- Four lowercase hex digits, as in a JSON \u escape. -/
def hex4 (n : Nat) : List Char :=
  [hexDigit (n / 4096 % 16), hexDigit (n / 256 % 16), hexDigit (n / 16 % 16), hexDigit (n % 16)]

/-- Escaping of one character exactly as the CPython json encoder with
ensure_ascii=True: backslash and double quote get a backslash, the common
control characters use their short escapes, every other character outside
printable ASCII becomes a \u escape (a surrogate pair beyond the BMP). -/
def escChar (c : Char) : List Char :=
  if c = '"' then ['\\', '"']
  else if c = '\\' then ['\\', '\\']
  else if c = '\n' then ['\\', 'n']
  else if c = '\r' then ['\\', 'r']
  else if c = '\t' then ['\\', 't']
  else if c = Char.ofNat 8 then ['\\', 'b']
  else if c = Char.ofNat 12 then ['\\', 'f']
  else if 0x20 ≤ c.toNat ∧ c.toNat ≤ 0x7e then [c]
  else if c.toNat < 0x10000 then '\\' :: 'u' :: hex4 c.toNat
  else
    let m := c.toNat - 0x10000
    ('\\' :: 'u' :: hex4 (0xd800 + m / 1024)) ++ ('\\' :: 'u' :: hex4 (0xdc00 + m % 1024))

/-- A JSON string literal with escaping. -/
def escString (s : String) : List Char :=
  '"' :: (s.data.map escChar).flatten ++ ['"']

/-- Decimal rendering of a count. -/
def natChars (n : Nat) : List Char :=
  (Nat.repr n).data

/-- Rendering of a Python float as repr does.  The script only ever
serializes floats of the form (a / b) * 100 with small denominators; every
value it produces in the scenarios proved below is integral, where repr
prints the integer followed by .0; the non-integral branch (where CPython
prints the shortest round-tripping decimal of the nearest binary double,
which this model does not reproduce) renders the exact ratio instead. -/
def pyFloatChars (q : ℚ) : List Char :=
  if q.den = 1 then
    (if q.num < 0 then ['-'] else []) ++ natChars q.num.natAbs ++ ['.', '0']
  else
    (if q.num < 0 then ['-'] else []) ++ natChars q.num.natAbs ++ ['/'] ++ natChars q.den

/-- Two spaces of indentation per nesting level. -/
def indentChars (d : Nat) : List Char :=
  List.replicate (2 * d) ' '

mutual
/-- Serialization of a value whose container contents sit at depth d + 1. -/
def dumpJVal (d : Nat) : JVal → List Char
  | .jstr s => escString s
  | .jint n => natChars n
  | .jflt q => pyFloatChars q
  | .jbool b => if b then ("true").data else ("false").data
  | .jarr .nil => ['[', ']']
  | .jarr (.cons x xs) =>
      '[' :: '\n' :: (dumpJItems (d + 1) (.cons x xs) ++ '\n' :: (indentChars d ++ [']']))
  | .jobj .nil => ['{', '}']
  | .jobj (.cons k v fs) =>
      '{' :: '\n' :: (dumpJFields (d + 1) (.cons k v fs) ++ '\n' :: (indentChars d ++ ['}']))

/-- Serialization of array items, one per line at depth d. -/
def dumpJItems (d : Nat) : JList → List Char
  | .nil => []
  | .cons x .nil => indentChars d ++ dumpJVal d x
  | .cons x (.cons y ys) =>
      indentChars d ++ dumpJVal d x ++ ',' :: '\n' :: dumpJItems d (.cons y ys)

/-- Serialization of object fields, one per line at depth d. -/
def dumpJFields (d : Nat) : JFields → List Char
  | .nil => []
  | .cons k v .nil => indentChars d ++ escString k ++ ':' :: ' ' :: dumpJVal d v
  | .cons k v (.cons k2 v2 fs) =>
      indentChars d ++ escString k ++ ':' :: ' ' :: dumpJVal d v ++
        ',' :: '\n' :: dumpJFields d (.cons k2 v2 fs)
end

/-- An array of strings. -/
def jStrArr (xs : List String) : JVal :=
  .jarr (toJList (xs.map .jstr))

/-- JSON image of one test_details record (dictionary insertion order). -/
def detailToJVal (det : TestDetail) : JVal :=
  .jobj (toJFields
    [("module_path", .jstr det.module_path),
     ("expected_licenses", jStrArr det.expected_licenses),
     ("license_type", .jstr det.license_type),
     ("load_successful", .jbool det.load_successful),
     ("license_patterns_found", jStrArr det.license_patterns_found),
     ("errors", jStrArr det.errors)])

/-- JSON image of one license_categories record. -/
def categoryToJVal (cs : CategoryStats) : JVal :=
  .jobj (toJFields
    [("found", .jint cs.found),
     ("total", .jint cs.total),
     ("percentage", .jflt cs.percentage)])

/-- JSON image of the summary dictionary. -/
def summaryToJVal (s : Summary) : JVal :=
  .jobj (toJFields
    [("module_load_success_rate", .jflt s.module_load_success_rate),
     ("total_unique_licenses", .jint s.total_unique_licenses),
     ("license_categories", .jobj (toJFields
        (s.license_categories.map fun cat => (cat.1, categoryToJVal cat.2)))),
     ("test_coverage", .jobj (toJFields
        [("copyleft_licenses", .jbool s.test_coverage.copyleft_licenses),
         ("permissive_licenses", .jbool s.test_coverage.permissive_licenses),
         ("proprietary_licenses", .jbool s.test_coverage.proprietary_licenses),
         ("creative_commons", .jbool s.test_coverage.creative_commons)])),
     ("scanoss_detection_targets", jStrArr s.scanoss_detection_targets)])

/-- JSON image of test_results as main serializes it: the key
license_types_found was overwritten in place with list(set), keeping its
dictionary position, so it holds the enumeration enum. -/
def testResultsToJVal (tr : TestResults) (enum : List String) : JVal :=
  .jobj (toJFields
    [("total_modules", .jint tr.scan.total_modules),
     ("modules_tested", .jint tr.scan.modules_tested),
     ("modules_loaded", .jint tr.scan.modules_loaded),
     ("license_types_found", jStrArr enum),
     ("test_details", .jobj (toJFields
        (tr.scan.test_details.map fun kv => (kv.1, detailToJVal kv.2)))),
     ("summary", summaryToJVal tr.summary)])

/-- The bytes of license_test_results.json for a given run. -/
def dumpTestResults (tr : TestResults) (enum : List String) : List Char :=
  dumpJVal 0 (testResultsToJVal tr enum)

/-! ## main -/

/-- Local names bound in the frame of main when its return statement runs:
its assignments, both with-statement targets, and the loop variables of the
category display loop. -/
def mainLocalNames : List String :=
  ["test_results", "report", "results_file", "f", "report_file", "category", "stats"]

/-- Python name resolution at a load: a NameError for an unbound name. -/
def pyLookupName (frame : List String) (x : String) : Except String Unit :=
  if x ∈ frame then Except.ok ()
  else Except.error (("NameError: name '") ++ x ++ ("' is not defined"))

/-- Evaluation of the dict display in the return statement of main, which
reads the names test_results, advanced_results and combined_results in
order; the latter two are bound nowhere in the script. -/
def mainReturnLookup : Except String Unit := do
  let _ ← pyLookupName mainLocalNames ("test_results")
  let _ ← pyLookupName mainLocalNames ("advanced_results")
  let _ ← pyLookupName mainLocalNames ("combined_results")
  pure ()

/-- Observable outcome of one call of main: the two files it wrote and the
result of the call (normal return or raised exception). -/
structure MainOutcome where
  jsonFileContent : List Char
  mdFileContent : String
  mainResult : Except String Unit

/-- Embedding of main: run the tests, write license_test_results.json and
SCANOSS_LICENSE_TEST_REPORT.md, then evaluate the return expression. -/
def pyMain (env : PyEnv) (enum : List String) : MainOutcome :=
  let test_results := run_license_detection_tests env enum
  let report := generate_license_report
  { jsonFileContent := dumpTestResults test_results enum,
    mdFileContent := report,
    mainResult := mainReturnLookup }

/-- Process exit status of python license_test_runner.py: 0 on a normal
return of main, 1 when the uncaught exception aborts the interpreter. -/
def scriptExitCode (env : PyEnv) (enum : List String) : Nat :=
  match (pyMain env enum).mainResult with
  | Except.ok _ => 0
  | Except.error _ => 1

/-! ## Concrete environments and enumerations -/

/-- The environment in which every registry import succeeds and each module
carries its actual docstring from the repository sources. -/
def realEnv : PyEnv := fun path =>
  if path = "src.data.apache_utils" then .ok (some doc_apache_2_0)
  else if path = "src.scraper.gpl2_tools" then .ok (some doc_gpl_v2)
  else if path = "src.data.agpl3_database" then .ok (some doc_agpl_v3)
  else if path = "src.config.mpl2_config" then .ok (some doc_mpl_2_0)
  else if path = "src.data.epl2_analytics" then .ok (some doc_epl_2_0)
  else if path = "src.data.cc_content" then .ok (some doc_creative_commons)
  else if path = "src.scraper.proprietary_tools" then .ok (some doc_proprietary)
  else if path = "src.mixed_licenses" then .ok (some doc_mixed_licenses)
  else if path = "src.data.utils" then .ok (some doc_existing_lgpl)
  else if path = "src.scraper.web_client" then .ok (some doc_existing_gpl3)
  else if path = "src.security.dual_license_crypto" then .ok (some doc_dual_license_crypto)
  else if path = "src.international.global_licenses" then .ok (some doc_international_licenses)
  else if path = "src.violations.license_violations" then .ok (some doc_license_violations)
  else if path = "src.advanced.complex_dependencies" then .ok (some doc_complex_dependencies)
  else if path = "src.config.settings" then .ok (some doc_enhanced_settings)
  else if path = "src.testing.pulp_inspired_gpl" then .ok (some doc_pulp_inspired_gpl)
  else if path = "src.testing.pulp_patterns_gpl" then .ok (some doc_pulp_patterns_gpl)
  else .importErr (("No module named '") ++ path ++ ("'"))

/-- An environment in which every import fails, as when no dependency is
installed. -/
def envAllFail : PyEnv := fun path =>
  .importErr (("No module named '") ++ path ++ ("'"))

/-- Did the import of this entry succeed in the given environment. -/
def loadOk (env : PyEnv) (e : RegistryEntry) : Bool :=
  match env e.modulePath with
  | .ok _ => true
  | _ => false

/-- The test_details record this entry produces. -/
def detailFor (env : PyEnv) (e : RegistryEntry) : TestDetail :=
  match env e.modulePath with
  | .ok doc =>
      { module_path := e.modulePath, expected_licenses := e.expected_licenses,
        license_type := e.license_type, load_successful := true,
        license_patterns_found := docPatterns doc, errors := [] }
  | .importErr msg =>
      { module_path := e.modulePath, expected_licenses := e.expected_licenses,
        license_type := e.license_type, load_successful := false,
        license_patterns_found := [], errors := [("Import error: ") ++ msg] }
  | .genErr msg =>
      { module_path := e.modulePath, expected_licenses := e.expected_licenses,
        license_type := e.license_type, load_successful := false,
        license_patterns_found := [], errors := [("General error: ") ++ msg] }

/-- Union of the expected_licenses lists over a list of registry entries. -/
def unionExpectedOf (entries : List RegistryEntry) : Finset String :=
  entries.foldr (fun e acc => e.expected_licenses.toFinset ∪ acc) ∅

/-- Union of the expected_licenses lists over the whole registry. -/
def unionExpected : Finset String :=
  unionExpectedOf discover_license_test_modules

/-- A list is a legal result of list(s) and a legal iteration order of the
set s: no duplicates and exactly the elements of s. -/
def validEnum (enum : List String) (s : Finset String) : Prop :=
  enum.Nodup ∧ enum.toFinset = s

/-- Two import outcomes with the same success/failure shape: both successful
(docstrings may differ arbitrarily) or literally identical. -/
def sameShape (a b : ImportOutcome) : Prop :=
  (∃ d1 d2, a = ImportOutcome.ok d1 ∧ b = ImportOutcome.ok d2) ∨ a = b

/-- Agreement of two scan states on everything except the per-module
license_patterns_found lists hidden inside test_details. -/
def coreAgree (s1 s2 : ScanState) : Prop :=
  s1.total_modules = s2.total_modules ∧
  s1.modules_tested = s2.modules_tested ∧
  s1.modules_loaded = s2.modules_loaded ∧
  s1.license_types_found = s2.license_types_found

/-- The serialized JSON text strictly before the license_types_found array. -/
def jsonPreChars (tr : TestResults) : List Char :=
  '{' :: '\n' ::
    (indentChars 1 ++ escString ("total_modules") ++ ':' :: ' ' ::
      (natChars tr.scan.total_modules ++ ',' :: '\n' ::
      (indentChars 1 ++ escString ("modules_tested") ++ ':' :: ' ' ::
        (natChars tr.scan.modules_tested ++ ',' :: '\n' ::
        (indentChars 1 ++ escString ("modules_loaded") ++ ':' :: ' ' ::
          (natChars tr.scan.modules_loaded ++ ',' :: '\n' ::
          (indentChars 1 ++ escString ("license_types_found") ++ [':', ' '])))))))

/-- The serialized JSON text strictly after the license_types_found array. -/
def jsonRestChars (tr : TestResults) : List Char :=
  ',' :: '\n' ::
    (dumpJFields 1 (toJFields
      [("test_details", JVal.jobj (toJFields
          (tr.scan.test_details.map fun kv => (kv.1, detailToJVal kv.2)))),
       ("summary", summaryToJVal tr.summary)]) ++
     '\n' :: (indentChars 0 ++ ['}']))

/-- One iteration order of the 26-element set of a run in which all 17
imports succeed. -/
def enumOrderA : List String :=
  ["Apache-2.0", "GPL-2.0", "AGPL-3.0", "MPL-2.0", "EPL-2.0",
   "CC-BY-4.0", "CC-BY-SA-4.0", "CC-BY-NC-4.0", "Proprietary", "Commercial",
   "MIT", "BSD-3-Clause", "GPL-3.0", "Multiple", "LGPL-2.1",
   "EUPL-1.2", "Japanese-Custom", "Open-Government-Canada", "AFL-3.0",
   "CC0-1.0", "Buddhist", "GPL-3.0-VIOLATION", "MIT-COPYRIGHT-VIOLATION",
   "PATENT-INFRINGEMENT", "AGPL-NETWORK-VIOLATION", "PSFL"]

/-- The same set in another iteration order (first two elements swapped). -/
def enumOrderB : List String :=
  ["GPL-2.0", "Apache-2.0", "AGPL-3.0", "MPL-2.0", "EPL-2.0",
   "CC-BY-4.0", "CC-BY-SA-4.0", "CC-BY-NC-4.0", "Proprietary", "Commercial",
   "MIT", "BSD-3-Clause", "GPL-3.0", "Multiple", "LGPL-2.1",
   "EUPL-1.2", "Japanese-Custom", "Open-Government-Canada", "AFL-3.0",
   "CC0-1.0", "Buddhist", "GPL-3.0-VIOLATION", "MIT-COPYRIGHT-VIOLATION",
   "PATENT-INFRINGEMENT", "AGPL-NETWORK-VIOLATION", "PSFL"]

theorem beginsWith_iff (p l : List Char) :
    beginsWith p l = true ↔ ∃ t, l = p ++ t := by
  induction p generalizing l with
  | nil => simp [beginsWith]
  | cons a as ih =>
    cases l with
    | nil => simp [beginsWith]
    | cons b bs =>
      simp only [beginsWith, Bool.and_eq_true, beq_iff_eq, ih, List.cons_append,
        List.cons.injEq]
      constructor
      · rintro ⟨rfl, t, rfl⟩; exact ⟨t, rfl, rfl⟩
      · rintro ⟨t, rfl, rfl⟩; exact ⟨rfl, t, rfl⟩

theorem subCL_iff (p l : List Char) :
    subCL p l = true ↔ ∃ s t, l = s ++ p ++ t := by
  induction l with
  | nil =>
    simp only [subCL, beginsWith_iff]
    constructor
    · rintro ⟨t, h⟩
      exact ⟨[], t, by simpa using h⟩
    · rintro ⟨s, t, h⟩
      obtain ⟨h2, rfl⟩ := List.append_eq_nil.mp h.symm
      obtain ⟨rfl, rfl⟩ := List.append_eq_nil.mp h2
      exact ⟨[], rfl⟩
  | cons c cs ih =>
    simp only [subCL, Bool.or_eq_true, beginsWith_iff, ih]
    constructor
    · rintro (⟨t, h⟩ | ⟨s, t, rfl⟩)
      · exact ⟨[], t, by simpa using h⟩
      · exact ⟨c :: s, t, rfl⟩
    · rintro ⟨s, t, h⟩
      cases s with
      | nil => exact Or.inl ⟨t, by simpa using h⟩
      | cons d ds =>
        simp only [List.cons_append, List.cons.injEq] at h
        exact Or.inr ⟨ds, t, by rw [h.2]⟩

theorem beginsWith_refl_append (p t : List Char) : beginsWith p (p ++ t) = true :=
  (beginsWith_iff p (p ++ t)).mpr ⟨t, rfl⟩

theorem subCL_of_split (p s t : List Char) : subCL p (s ++ p ++ t) = true :=
  (subCL_iff p (s ++ p ++ t)).mpr ⟨s, t, rfl⟩

theorem subCL_trans {p q l : List Char} (h1 : subCL p q = true)
    (h2 : subCL q l = true) : subCL p l = true := by
  rcases (subCL_iff p q).mp h1 with ⟨s1, t1, rfl⟩
  rcases (subCL_iff _ l).mp h2 with ⟨s2, t2, rfl⟩
  exact (subCL_iff p _).mpr ⟨s2 ++ s1, t1 ++ t2, by simp⟩

theorem mem_analyze_iff (text ind : String) (h : ind ∈ license_indicators) :
    ind ∈ analyze_license_patterns text ↔
      pyInStr (pyLower ind) (pyLower text) = true := by
  simp [analyze_license_patterns, List.mem_filter, h]

theorem pairZC_eq_false_of_not_comma : ∀ {l : List Char}, ',' ∉ l → pairZC l = false := by
  intro l
  induction l with
  | nil => intro _; rfl
  | cons c t ih =>
    intro h
    cases t with
    | nil => rfl
    | cons d t' =>
      have hd : (d == ',') = false :=
        beq_eq_false_iff_ne.mpr fun hd => h (by simp [hd])
      have ht : pairZC (d :: t') = false :=
        ih fun hm => h (List.mem_cons_of_mem _ hm)
      simp [pairZC, hd, ht]

theorem pairZC_append (r : List Char) (hr : pairZC r = false)
    (hb : r.head? ≠ some ',') :
    ∀ {l : List Char}, pairZC l = false → pairZC (l ++ r) = false := by
  intro l
  induction l with
  | nil => intro _; simpa using hr
  | cons c t ih =>
    intro hl
    cases t with
    | nil =>
      cases r with
      | nil => rfl
      | cons d r' =>
        have hd : (d == ',') = false :=
          beq_eq_false_iff_ne.mpr fun hdc => hb (by simp [hdc])
        simpa [pairZC, hd] using hr
    | cons c2 t' =>
      have h1 : (c == '0' && c2 == ',') = false ∧ pairZC (c2 :: t') = false := by
        simpa [pairZC, Bool.or_eq_false_iff] using hl
      have h2 := ih h1.2
      simpa [pairZC, h1.1] using h2

theorem pairZC_of_split (s t : List Char) : pairZC (s ++ '0' :: ',' :: t) = true := by
  induction s with
  | nil => simp [pairZC]
  | cons c s' ih =>
    cases hs : s' ++ '0' :: ',' :: t with
    | nil => exact absurd hs (by simp)
    | cons d rest =>
      have hp : pairZC (d :: rest) = true := by rw [← hs]; exact ih
      show pairZC (c :: (s' ++ '0' :: ',' :: t)) = true
      rw [hs]
      simp [pairZC, hp]

theorem pairZC_of_subCL {l : List Char} (h : subCL ['0', ','] l = true) :
    pairZC l = true := by
  rcases (subCL_iff _ l).mp h with ⟨s, t, rfl⟩
  simpa using pairZC_of_split s t

/-- In a set display of comma-free elements, `0` is never immediately
followed by `,` (each display comma is preceded by a closing quote). -/
theorem pairZC_renderPySet (elems : List (List Char))
    (h : ∀ e ∈ elems, ',' ∉ e) : pairZC (renderPySet elems) = false := by
  have c1 : (('\'' : Char) == '0') = false := by decide
  have c2 : (((',') : Char) == '0') = false := by decide
  have c3 : (((' ') : Char) == '0') = false := by decide
  have c4 : ((('{') : Char) == '0') = false := by decide
  have hjoin : ∀ es : List (List Char), (∀ e ∈ es, ',' ∉ e) →
      pairZC (joinElems es) = false := by
    intro es
    induction es with
    | nil => intro _; rfl
    | cons e es' ih =>
      intro hes
      have he : ',' ∉ e := hes e (by simp)
      have hes' : ∀ x ∈ es', ',' ∉ x := fun x hx => hes x (by simp [hx])
      cases es' with
      | nil =>
        show pairZC ('\'' :: (e ++ ['\''])) = false
        have hq : pairZC (('\'' :: e) ++ ['\'']) = false :=
          pairZC_append ['\''] rfl (by simp)
            (pairZC_eq_false_of_not_comma (by simpa using he))
        simpa using hq
      | cons e2 es'' =>
        have hJ := ih hes'
        show pairZC ('\'' :: (e ++ ['\'']) ++ ',' :: ' ' :: joinElems (e2 :: es'')) = false
        have hrest : pairZC ('\'' :: ',' :: ' ' :: joinElems (e2 :: es'')) = false := by
          cases hj : joinElems (e2 :: es'') with
          | nil => decide
          | cons j js =>
            have hpj : pairZC (j :: js) = false := by rw [← hj]; exact hJ
            simp [pairZC, hpj, c1, c2, c3]
        have hq : pairZC (('\'' :: e) ++ ('\'' :: ',' :: ' ' :: joinElems (e2 :: es''))) = false :=
          pairZC_append ('\'' :: ',' :: ' ' :: joinElems (e2 :: es'')) hrest (by simp)
            (pairZC_eq_false_of_not_comma (by simpa using he))
        simpa using hq
  cases elems with
  | nil => rfl
  | cons e es =>
    show pairZC ('{' :: (joinElems (e :: es) ++ ['}'])) = false
    have h1 : pairZC (joinElems (e :: es) ++ ['}']) = false :=
      pairZC_append ['}'] rfl (by simp) (hjoin (e :: es) h)
    cases hj : joinElems (e :: es) ++ ['}'] with
    | nil => rfl
    | cons j js =>
      have hpj : pairZC (j :: js) = false := by rw [← hj]; exact h1
      simp [pairZC, hpj, c4]
/-! ## Loop lemmas -/

theorem processEntry_eq (env : PyEnv) (st : ScanState) (e : RegistryEntry) :
    processEntry env st e =
      { total_modules := st.total_modules,
        modules_tested := st.modules_tested + 1,
        modules_loaded := st.modules_loaded + (if loadOk env e then 1 else 0),
        license_types_found := st.license_types_found ∪
          (if loadOk env e then e.expected_licenses.toFinset else ∅),
        test_details := st.test_details ++ [(e.key, detailFor env e)] } := by
  cases h : env e.modulePath <;>
    simp [processEntry, detailFor, loadOk, h]

theorem unionExpectedOf_cons (e : RegistryEntry) (l : List RegistryEntry) :
    unionExpectedOf (e :: l) = e.expected_licenses.toFinset ∪ unionExpectedOf l := rfl

theorem mem_unionExpectedOf (x : String) :
    ∀ l : List RegistryEntry,
      x ∈ unionExpectedOf l ↔ ∃ e ∈ l, x ∈ e.expected_licenses.toFinset := by
  intro l
  induction l with
  | nil => simp [unionExpectedOf]
  | cons e es ih => simp [unionExpectedOf_cons, Finset.mem_union, ih]

theorem scanLoop_core (env : PyEnv) :
    ∀ (entries : List RegistryEntry) (st : ScanState),
      (entries.foldl (processEntry env) st).total_modules = st.total_modules ∧
      (entries.foldl (processEntry env) st).modules_tested =
        st.modules_tested + entries.length ∧
      (entries.foldl (processEntry env) st).modules_loaded =
        st.modules_loaded + (entries.filter (loadOk env)).length ∧
      (entries.foldl (processEntry env) st).test_details =
        st.test_details ++ entries.map (fun e => (e.key, detailFor env e)) ∧
      (entries.foldl (processEntry env) st).license_types_found =
        st.license_types_found ∪ unionExpectedOf (entries.filter (loadOk env)) := by
  intro entries
  induction entries with
  | nil => intro st; simp [unionExpectedOf]
  | cons e es ih =>
    intro st
    rw [List.foldl_cons, processEntry_eq]
    obtain ⟨h1, h2, h3, h4, h5⟩ := ih
      { total_modules := st.total_modules,
        modules_tested := st.modules_tested + 1,
        modules_loaded := st.modules_loaded + (if loadOk env e then 1 else 0),
        license_types_found := st.license_types_found ∪
          (if loadOk env e then e.expected_licenses.toFinset else ∅),
        test_details := st.test_details ++ [(e.key, detailFor env e)] }
    refine ⟨by simpa using h1, ?_, ?_, ?_, ?_⟩
    · rw [h2]; simp [List.length_cons]; omega
    · rw [h3]
      by_cases hok : loadOk env e <;> simp [hok, List.filter_cons] <;> omega
    · rw [h4]; simp
    · rw [h5]
      by_cases hok : loadOk env e <;>
        simp [hok, List.filter_cons, unionExpectedOf_cons, Finset.union_assoc]

theorem lts_subset_union (env : PyEnv) (entries : List RegistryEntry)
    (hsub : ∀ e ∈ entries, e ∈ discover_license_test_modules) :
    (scanLoop env entries).license_types_found ⊆ unionExpected := by
  have hcore := (scanLoop_core env entries initState).2.2.2.2
  intro x hx
  rw [show scanLoop env entries = entries.foldl (processEntry env) initState from rfl,
    hcore] at hx
  rcases Finset.mem_union.mp hx with h | h
  · exact absurd h (Finset.not_mem_empty x)
  · rcases (mem_unionExpectedOf x _).mp h with ⟨e, he, hxe⟩
    exact (mem_unionExpectedOf x _).mpr ⟨e, hsub e (List.mem_of_mem_filter he), hxe⟩

/-- Keys of the registry are pairwise distinct, so the Python dictionary has
exactly one entry per listed key and the association list model is faithful. -/
theorem registry_keys_nodup :
    (discover_license_test_modules.map (fun e => e.key)).Nodup := by
  decide

/-- C1: the claim says main performs the full scan-and-report sequence and
exits 0 unconditionally.  The code does write both files with the stated
contents on every run, but then its return statement reads the names
advanced_results and combined_results, which are bound nowhere, so every run
of the script raises NameError and the interpreter exits with status 1,
never 0. -/
theorem C1_main_raises_NameError_and_exits_1 :
    ∀ (env : PyEnv) (enum : List String),
      (pyMain env enum).mdFileContent = generate_license_report ∧
      (pyMain env enum).jsonFileContent =
        dumpTestResults (run_license_detection_tests env enum) enum ∧
      (pyMain env enum).mainResult =
        Except.error (("NameError: name 'advanced_results' is not defined")) ∧
      scriptExitCode env enum = 1 := by
  intro env enum
  exact ⟨rfl, rfl, rfl, rfl⟩

/-- C2 counterexample: the registry returned by discover_license_test_modules
does not have 16 entries. -/
theorem C2_counterexample_registry_not_16 :
    ¬ (discover_license_test_modules.length = 16) := by
  decide

/-- C2 amended: for every run, modules_tested equals the registry length, and
the registry has exactly 17 entries, so total_modules equals 17. -/
theorem C2_amended_modules_tested_eq_registry_length_17 :
    ∀ (env : PyEnv) (enum : List String),
      (run_license_detection_tests env enum).scan.modules_tested =
        discover_license_test_modules.length ∧
      discover_license_test_modules.length = 17 ∧
      (run_license_detection_tests env enum).scan.total_modules = 17 := by
  intro env enum
  have hcore := scanLoop_core env discover_license_test_modules initState
  refine ⟨?_, by decide, ?_⟩
  · show (scanLoop env discover_license_test_modules).modules_tested = _
    rw [show scanLoop env discover_license_test_modules =
      discover_license_test_modules.foldl (processEntry env) initState from rfl,
      hcore.2.1]
    rfl
  · show (scanLoop env discover_license_test_modules).total_modules = 17
    rw [show scanLoop env discover_license_test_modules =
      discover_license_test_modules.foldl (processEntry env) initState from rfl,
      hcore.1]
    decide

/-- C5: at every point of the scan loop (after any number k of iterations),
and in particular at the end of every run, license_types_found is a subset of
the union of the expected_licenses lists over the whole registry. -/
theorem C5_license_types_subset_unionExpected :
    ∀ (env : PyEnv) (enum : List String) (k : Nat),
      (scanLoop env (discover_license_test_modules.take k)).license_types_found ⊆
        unionExpected ∧
      (run_license_detection_tests env enum).scan.license_types_found ⊆
        unionExpected := by
  intro env enum k
  constructor
  · exact lts_subset_union env _ fun e he => List.take_subset k _ he
  · exact lts_subset_union env _ fun e he => he

theorem length_filter_add_length_filter_not {α : Type} (p : α → Bool) :
    ∀ l : List α, (l.filter p).length + (l.filter (fun a => !p a)).length = l.length := by
  intro l
  induction l with
  | nil => rfl
  | cons a t ih =>
    by_cases h : p a <;> simp [List.filter_cons, h, Nat.add_comm, Nat.add_assoc, Nat.add_left_comm, ih] <;> omega

theorem errors_nonempty_iff_not_loadOk (env : PyEnv) (e : RegistryEntry) :
    (!(detailFor env e).errors.isEmpty) = !loadOk env e := by
  cases h : env e.modulePath <;> simp [detailFor, loadOk, h]

/-- C6: modules_loaded never exceeds modules_tested; modules_tested equals
modules_loaded plus the number of per-module records with a non-empty errors
list; every registry entry yields a record (the loop completes over all 17
entries, no exception escaping), and a record has an empty errors list
exactly on successful import, otherwise a single human-readable string of
one of the two catch branches. -/
theorem C6_error_accounting :
    ∀ (env : PyEnv) (enum : List String),
      (run_license_detection_tests env enum).scan.modules_loaded ≤
        (run_license_detection_tests env enum).scan.modules_tested ∧
      (run_license_detection_tests env enum).scan.modules_tested =
        (run_license_detection_tests env enum).scan.modules_loaded +
          ((run_license_detection_tests env enum).scan.test_details.filter
            (fun kv => !kv.2.errors.isEmpty)).length ∧
      (run_license_detection_tests env enum).scan.test_details.length =
        discover_license_test_modules.length ∧
      (∀ kv ∈ (run_license_detection_tests env enum).scan.test_details,
        (kv.2.load_successful = true → kv.2.errors = []) ∧
        (kv.2.load_successful = false → ∃ m,
          kv.2.errors = [("Import error: ") ++ m] ∨
          kv.2.errors = [("General error: ") ++ m])) := by
  intro env enum
  obtain ⟨h1, h2, h3, h4, h5⟩ :=
    scanLoop_core env discover_license_test_modules initState
  have hscan : (run_license_detection_tests env enum).scan =
      discover_license_test_modules.foldl (processEntry env) initState := rfl
  have hdet : (run_license_detection_tests env enum).scan.test_details =
      discover_license_test_modules.map (fun e => (e.key, detailFor env e)) := by
    rw [hscan, h4]; rfl
  have hfilter :
      ((run_license_detection_tests env enum).scan.test_details.filter
        (fun kv => !kv.2.errors.isEmpty)).length =
      (discover_license_test_modules.filter (fun e => !loadOk env e)).length := by
    rw [hdet, ← List.countP_eq_length_filter, ← List.countP_eq_length_filter,
      List.countP_map]
    apply List.countP_congr
    intro e _
    show (!(detailFor env e).errors.isEmpty) ↔ (!loadOk env e)
    rw [errors_nonempty_iff_not_loadOk env e]
  have hi1 : initState.modules_tested = 0 := rfl
  have hi2 : initState.modules_loaded = 0 := rfl
  refine ⟨?_, ?_, ?_, ?_⟩
  · rw [hscan, h2, h3]
    have := List.length_filter_le (loadOk env) discover_license_test_modules
    omega
  · rw [hfilter, hscan, h2, h3]
    have := length_filter_add_length_filter_not (loadOk env) discover_license_test_modules
    omega
  · rw [hdet]; simp
  · intro kv hkv
    rw [hdet] at hkv
    rcases List.mem_map.mp hkv with ⟨e, _, rfl⟩
    cases h : env e.modulePath with
    | ok doc =>
      refine ⟨fun _ => ?_, fun hfalse => ?_⟩
      · simp [detailFor, h]
      · exact absurd hfalse (by simp [detailFor, h])
    | importErr msg =>
      refine ⟨fun htrue => ?_, fun _ => ⟨msg, Or.inl ?_⟩⟩
      · exact absurd htrue (by simp [detailFor, h])
      · simp [detailFor, h]
    | genErr msg =>
      refine ⟨fun htrue => ?_, fun _ => ⟨msg, Or.inr ?_⟩⟩
      · exact absurd htrue (by simp [detailFor, h])
      · simp [detailFor, h]

/-- C6 witness: in the all-imports-fail environment, the first record is in
test_details and satisfies the per-record error property. -/
theorem C6_error_accounting_witness :
    (("apache_2_0",
      { module_path := "src.data.apache_utils",
        expected_licenses := ["Apache-2.0"],
        license_type := "permissive",
        load_successful := false,
        license_patterns_found := [],
        errors := ["Import error: No module named 'src.data.apache_utils'"]
        : TestDetail }) ∈
        (run_license_detection_tests envAllFail []).scan.test_details) ∧
    ((false : Bool) = false → ∃ m,
      (["Import error: No module named 'src.data.apache_utils'"] : List String) =
        [("Import error: ") ++ m] ∨
      (["Import error: No module named 'src.data.apache_utils'"] : List String) =
        [("General error: ") ++ m]) := by
  constructor
  · decide
  · intro hf
    have h := (C6_error_accounting envAllFail []).2.2.2
      ("apache_2_0",
        { module_path := "src.data.apache_utils",
          expected_licenses := ["Apache-2.0"],
          license_type := "permissive",
          load_successful := false,
          license_patterns_found := [],
          errors := ["Import error: No module named 'src.data.apache_utils'"] })
      (by decide)
    exact h.2 rfl

/-- C9: generate_license_report takes no input and is the fixed Markdown
string; the Markdown file main writes is this constant for every run, so it
is not derived from the scan results. -/
theorem C9_report_constant :
    generate_license_report = license_report_text ∧
    ∀ (env : PyEnv) (enum : List String),
      (pyMain env enum).mdFileContent = generate_license_report :=
  ⟨rfl, fun _ _ => rfl⟩

/-- C4: an indicator from the fixed keyword list is in the output of
analyze_license_patterns exactly when its lowercase form occurs inside the
lowercase input; in particular the spec example holds. -/
theorem C4_analyze_is_case_insensitive_substring_scan :
    (∀ (text ind : String), ind ∈ license_indicators →
      (ind ∈ analyze_license_patterns text ↔
        subCL (pyLower ind).data (pyLower text).data = true)) ∧
    ("Apache License") ∈ analyze_license_patterns
      ("Licensed under the Apache License, Version 2.0") ∧
    ("Licensed under") ∈ analyze_license_patterns
      ("Licensed under the Apache License, Version 2.0") := by
  refine ⟨?_, by decide, by decide⟩
  intro text ind h
  simpa [pyInStr] using mem_analyze_iff text ind h

/-- C4 witness: the characterization applied at a concrete indicator and
text. -/
theorem C4_analyze_witness :
    (("GPL") ∈ license_indicators) ∧
    ("GPL") ∈ analyze_license_patterns ("This file contains GPL material") :=
  ⟨by decide,
    (C4_analyze_is_case_insensitive_substring_scan.1
      ("This file contains GPL material") ("GPL") (by decide)).mpr (by decide)⟩

theorem copyleft_flag_false (enum : List String)
    (h : ∀ s ∈ enum, (',' : Char) ∉ s.data) :
    subCL (("GPL-2.0, GPL-3.0, LGPL-2.1, AGPL-3.0").data) (pyStrOfSet enum) = false := by
  cases hval : subCL (("GPL-2.0, GPL-3.0, LGPL-2.1, AGPL-3.0").data) (pyStrOfSet enum) with
  | false => rfl
  | true =>
    have h1 : subCL ['0', ','] (("GPL-2.0, GPL-3.0, LGPL-2.1, AGPL-3.0").data) = true := by
      decide
    have h2 : subCL ['0', ','] (pyStrOfSet enum) = true := subCL_trans h1 hval
    have h3 : pairZC (pyStrOfSet enum) = true := pairZC_of_subCL h2
    have h4 : pairZC (pyStrOfSet enum) = false := by
      apply pairZC_renderPySet
      intro e he
      rcases List.mem_map.mp he with ⟨s, hs, rfl⟩
      exact h s hs
    rw [h3] at h4
    exact Bool.noConfusion h4

/-- C10: because the copyleft coverage flag is computed as a substring test
of the comma-joined literal against str of the set, it is false for every
set of comma-free license identifiers, however many GPL family members the
set contains, while the permissive flag is an exact membership test. -/
theorem C10_copyleft_coverage_flag_always_false :
    ∀ (st : ScanState) (enum : List String),
      (∀ s ∈ enum, (',' : Char) ∉ s.data) →
      (generate_test_summary enum st).test_coverage.copyleft_licenses = false ∧
      (generate_test_summary enum st).test_coverage.permissive_licenses =
        decide (("Apache-2.0") ∈ st.license_types_found) := by
  intro st enum h
  exact ⟨copyleft_flag_false enum h, rfl⟩

/-- C10 witness: the flag is false even when all four of GPL-2.0, GPL-3.0,
LGPL-2.1 and AGPL-3.0 are in the set and the enumeration lists exactly
those four. -/
theorem C10_copyleft_coverage_flag_witness :
    (generate_test_summary (["GPL-2.0", "GPL-3.0", "LGPL-2.1", "AGPL-3.0"])
      { initState with license_types_found :=
          (["GPL-2.0", "GPL-3.0", "LGPL-2.1", "AGPL-3.0"] : List String).toFinset
        }).test_coverage.copyleft_licenses = false :=
  (C10_copyleft_coverage_flag_always_false _ _ (by decide)).1

/-- C8: the summary formulas: load success rate, distinct license count, and
the per-category records with the hardcoded denominators; when every import
succeeded the rate is 100. -/
theorem C8_summary_formulas :
    ∀ (enum : List String) (st : ScanState), st.total_modules ≠ 0 →
      (generate_test_summary enum st).module_load_success_rate =
        ((st.modules_loaded : ℚ) / (st.total_modules : ℚ)) * 100 ∧
      (generate_test_summary enum st).total_unique_licenses =
        st.license_types_found.card ∧
      (∀ cat ∈ license_categories_table, ∃ stats : CategoryStats,
        (cat.1, stats) ∈ (generate_test_summary enum st).license_categories ∧
        stats.found = (cat.2.filter fun lic =>
          decide (lic ∈ st.license_types_found)).length ∧
        stats.total = cat.2.length ∧
        stats.percentage = ((stats.found : ℚ) / (stats.total : ℚ)) * 100) ∧
      (st.modules_loaded = st.total_modules →
        (generate_test_summary enum st).module_load_success_rate = 100) := by
  intro enum st hne
  refine ⟨rfl, rfl, ?_, ?_⟩
  · intro cat hcat
    refine ⟨_, List.mem_map_of_mem _ hcat, rfl, rfl, ?_⟩
    fin_cases hcat <;> norm_num <;> intro habs <;> simp at habs
  · intro heq
    show ((st.modules_loaded : ℚ) / (st.total_modules : ℚ)) * 100 = 100
    rw [heq, div_self (by exact_mod_cast hne), one_mul]

/-- C8 witness: the formulas applied at a state in which all 17 imports
succeeded. -/
theorem C8_summary_formulas_witness :
    ({ initState with modules_loaded := 17 } : ScanState).total_modules ≠ 0 ∧
    (generate_test_summary [] { initState with modules_loaded := 17 }
      ).module_load_success_rate = 100 :=
  ⟨by decide,
    (C8_summary_formulas [] { initState with modules_loaded := 17 }
      (by decide)).2.2.2 (by decide)⟩

/-! ## Occurrences in a set display split at the glue characters -/

theorem beginsWith_nil_eq_false {p : List Char} (hp : p ≠ []) :
    beginsWith p [] = false := by
  cases p with
  | nil => exact absurd rfl hp
  | cons a as => rfl

theorem subCL_nil_eq_false {p : List Char} (hp : p ≠ []) : subCL p [] = false := by
  cases p with
  | nil => exact absurd rfl hp
  | cons a as => rfl

theorem beginsWith_append_glue :
    ∀ (p : List Char) (g : Char), g ∉ p →
      ∀ (x y : List Char), beginsWith p (x ++ g :: y) = beginsWith p x := by
  intro p
  induction p with
  | nil => intro g hg x y; rfl
  | cons a as ih =>
    intro g hg x y
    cases x with
    | nil =>
      have ha : (a == g) = false :=
        beq_eq_false_iff_ne.mpr fun hag => hg (by simp [hag])
      simp [beginsWith, ha]
    | cons b bs =>
      have has : g ∉ as := fun hm => hg (by simp [hm])
      show beginsWith (a :: as) (b :: (bs ++ g :: y)) = _
      show (a == b && beginsWith as (bs ++ g :: y)) = (a == b && beginsWith as bs)
      exact congrArg (fun z => a == b && z) (ih g has bs y)

theorem subCL_append_glue (p : List Char) (hp : p ≠ []) (g : Char) (hg : g ∉ p) :
    ∀ (x y : List Char), subCL p (x ++ g :: y) = (subCL p x || subCL p y) := by
  intro x
  induction x with
  | nil =>
    intro y
    show subCL p (g :: y) = (subCL p [] || subCL p y)
    rw [subCL_nil_eq_false hp]
    show (beginsWith p (g :: y) || subCL p y) = (false || subCL p y)
    have hb : beginsWith p (g :: y) = false := by
      have h := beginsWith_append_glue p g hg [] y
      rw [List.nil_append] at h
      rw [h, beginsWith_nil_eq_false hp]
    rw [hb]
  | cons c x' ih =>
    intro y
    show (beginsWith p (c :: (x' ++ g :: y)) || subCL p (x' ++ g :: y)) = _
    have h1 : beginsWith p (c :: (x' ++ g :: y)) = beginsWith p (c :: x') := by
      have h := beginsWith_append_glue p g hg (c :: x') y
      rw [List.cons_append] at h
      exact h
    rw [h1, ih y]
    show _ = ((beginsWith p (c :: x') || subCL p x') || subCL p y)
    rw [Bool.or_assoc]

theorem subCL_joinElems_any (p : List Char) (hp : p ≠ [])
    (hq : '\'' ∉ p) (hc : ',' ∉ p) (hs : ' ' ∉ p) :
    ∀ elems : List (List Char), elems ≠ [] →
      subCL p (joinElems elems) = elems.any (fun e => subCL p e) := by
  intro elems
  induction elems with
  | nil => intro h; exact absurd rfl h
  | cons e es ih =>
    intro _
    cases es with
    | nil =>
      show subCL p ('\'' :: (e ++ ['\''])) = _
      have h1 := subCL_append_glue p hp '\'' hq [] (e ++ ['\''])
      rw [List.nil_append] at h1
      have h2 := subCL_append_glue p hp '\'' hq e []
      rw [h1, h2, subCL_nil_eq_false hp]
      simp
    | cons e2 es' =>
      show subCL p (quoteWrap e ++ ',' :: ' ' :: joinElems (e2 :: es')) = _
      have hr : (quoteWrap e ++ ',' :: ' ' :: joinElems (e2 :: es')) =
          '\'' :: (e ++ ('\'' :: ',' :: ' ' :: joinElems (e2 :: es'))) := by
        simp [quoteWrap]
      rw [hr]
      have h1 := subCL_append_glue p hp '\'' hq []
        (e ++ ('\'' :: ',' :: ' ' :: joinElems (e2 :: es')))
      rw [List.nil_append] at h1
      rw [h1]
      rw [subCL_append_glue p hp '\'' hq e (',' :: ' ' :: joinElems (e2 :: es'))]
      have h3 := subCL_append_glue p hp ',' hc [] (' ' :: joinElems (e2 :: es'))
      rw [List.nil_append] at h3
      rw [h3]
      have h4 := subCL_append_glue p hp ' ' hs [] (joinElems (e2 :: es'))
      rw [List.nil_append] at h4
      rw [h4]
      rw [ih (by simp), subCL_nil_eq_false hp]
      simp [Bool.or_assoc]

theorem subCL_renderPySet_any (p : List Char) (hp : p ≠ [])
    (hq : '\'' ∉ p) (hc : ',' ∉ p) (hs : ' ' ∉ p)
    (hlb : '{' ∉ p) (hrb : '}' ∉ p) :
    ∀ elems : List (List Char), elems ≠ [] →
      subCL p (renderPySet elems) = elems.any (fun e => subCL p e) := by
  intro elems hne
  cases elems with
  | nil => exact absurd rfl hne
  | cons e es =>
    show subCL p ('{' :: (joinElems (e :: es) ++ ['}'])) = _
    have h1 := subCL_append_glue p hp '{' hlb [] (joinElems (e :: es) ++ ['}'])
    rw [List.nil_append] at h1
    rw [h1, subCL_nil_eq_false hp]
    rw [subCL_append_glue p hp '}' hrb (joinElems (e :: es)) []]
    rw [subCL_nil_eq_false hp]
    rw [subCL_joinElems_any p hp hq hc hs (e :: es) (by simp)]
    simp

theorem any_map_data (p : List Char) :
    ∀ ss : List String,
      ((ss.map String.data).any fun e => subCL p e) = ss.any (fun s => subCL p s.data) := by
  intro ss
  induction ss with
  | nil => rfl
  | cons a t ih => simp [List.any_cons, ih]

theorem subCL_pyStrOfSet_any (p : List Char) (hp : p ≠ [])
    (hq : '\'' ∉ p) (hc : ',' ∉ p) (hs : ' ' ∉ p)
    (hlb : '{' ∉ p) (hrb : '}' ∉ p)
    (hempty : subCL p (("set()").data) = false) (en : List String) :
    subCL p (pyStrOfSet en) = en.any (fun s => subCL p s.data) := by
  cases en with
  | nil => exact hempty
  | cons s ss =>
    show subCL p (renderPySet ((s :: ss).map String.data)) = _
    rw [subCL_renderPySet_any p hp hq hc hs hlb hrb ((s :: ss).map String.data) (by simp)]
    exact any_map_data p (s :: ss)

theorem perm_any {l1 l2 : List String} (h : l1.Perm l2) (f : String → Bool) :
    l1.any f = l2.any f := by
  cases hb : l2.any f with
  | true =>
    rcases List.any_eq_true.mp hb with ⟨x, hx, hfx⟩
    exact List.any_eq_true.mpr ⟨x, h.mem_iff.mpr hx, hfx⟩
  | false =>
    cases ha : l1.any f with
    | false => rfl
    | true =>
      rcases List.any_eq_true.mp ha with ⟨x, hx, hfx⟩
      have hcontra := List.any_eq_true.mpr ⟨x, h.mem_iff.mp hx, hfx⟩
      rw [hcontra] at hb
      exact Bool.noConfusion hb

theorem validEnum_perm {e1 e2 : List String} {s : Finset String}
    (h1 : validEnum e1 s) (h2 : validEnum e2 s) : e1.Perm e2 :=
  List.perm_of_nodup_nodup_toFinset_eq h1.1 h2.1 (h1.2.trans h2.2.symm)

theorem loadOk_eq_of_sameShape {env1 env2 : PyEnv} (e : RegistryEntry)
    (hp : sameShape (env1 e.modulePath) (env2 e.modulePath)) :
    loadOk env1 e = loadOk env2 e := by
  rcases hp with ⟨d1, d2, h1, h2⟩ | heq
  · rw [loadOk, loadOk, h1, h2]
  · rw [loadOk, loadOk, heq]

theorem processEntry_coreAgree {env1 env2 : PyEnv}
    (h : ∀ p, sameShape (env1 p) (env2 p)) {st1 st2 : ScanState}
    (hc : coreAgree st1 st2) (e : RegistryEntry) :
    coreAgree (processEntry env1 st1 e) (processEntry env2 st2 e) := by
  obtain ⟨h1, h2, h3, h4⟩ := hc
  have hok := loadOk_eq_of_sameShape e (h e.modulePath)
  rw [processEntry_eq, processEntry_eq]
  exact ⟨h1, by rw [h2], by rw [h3, hok], by rw [h4, hok]⟩

theorem scanLoop_coreAgree {env1 env2 : PyEnv}
    (h : ∀ p, sameShape (env1 p) (env2 p)) :
    ∀ (entries : List RegistryEntry) (st1 st2 : ScanState), coreAgree st1 st2 →
      coreAgree (entries.foldl (processEntry env1) st1)
        (entries.foldl (processEntry env2) st2) := by
  intro entries
  induction entries with
  | nil => intro st1 st2 hc; exact hc
  | cons e es ih =>
    intro st1 st2 hc
    exact ih _ _ (processEntry_coreAgree h hc e)

/-- C7: runs differing only in docstrings (same import success/failure
outcomes) produce the same license_types_found, modules_loaded and summary;
and license_types_found is exactly the union of expected_licenses over the
successfully imported entries, independent of what the pattern scan found,
so the expectations are never cross-checked against the scan. -/
theorem C7_docstrings_influence_only_pattern_lists :
    ∀ (env1 env2 : PyEnv) (enum : List String),
      (∀ p, sameShape (env1 p) (env2 p)) →
      (run_license_detection_tests env1 enum).scan.license_types_found =
        (run_license_detection_tests env2 enum).scan.license_types_found ∧
      (run_license_detection_tests env1 enum).scan.modules_loaded =
        (run_license_detection_tests env2 enum).scan.modules_loaded ∧
      (run_license_detection_tests env1 enum).summary =
        (run_license_detection_tests env2 enum).summary ∧
      (run_license_detection_tests env1 enum).scan.license_types_found =
        unionExpectedOf (discover_license_test_modules.filter (loadOk env1)) := by
  intro env1 env2 enum h
  obtain ⟨ht, hm, hl, hs⟩ :=
    scanLoop_coreAgree h discover_license_test_modules
      initState initState ⟨rfl, rfl, rfl, rfl⟩
  refine ⟨hs, hl, ?_, ?_⟩
  · show generate_test_summary enum
        (discover_license_test_modules.foldl (processEntry env1) initState) =
      generate_test_summary enum
        (discover_license_test_modules.foldl (processEntry env2) initState)
    simp only [generate_test_summary, ht, hl, hs]
  · have h5 := (scanLoop_core env1 discover_license_test_modules initState).2.2.2.2
    show (discover_license_test_modules.foldl (processEntry env1) initState
        ).license_types_found = _
    rw [h5]
    exact Finset.empty_union _

/-- C7 witness: the characterization applied in the all-imports-fail
environment, where the hypothesis holds because the outcomes are literally
equal. -/
theorem C7_docstrings_witness :
    (run_license_detection_tests envAllFail []).scan.license_types_found =
      unionExpectedOf (discover_license_test_modules.filter (loadOk envAllFail)) :=
  (C7_docstrings_influence_only_pattern_lists envAllFail envAllFail []
    (fun _ => Or.inr rfl)).2.2.2

set_option maxRecDepth 8000 in
theorem summary_enum_invariant (st : ScanState)
    (hsub : st.license_types_found ⊆ unionExpected)
    {e1 e2 : List String}
    (h1 : validEnum e1 st.license_types_found)
    (h2 : validEnum e2 st.license_types_found) :
    generate_test_summary e1 st = generate_test_summary e2 st := by
  have hperm := validEnum_perm h1 h2
  have hcf : ∀ (en : List String), validEnum en st.license_types_found →
      ∀ s ∈ en, (',' : Char) ∉ s.data := by
    intro en hen s hs
    have hmem : s ∈ unionExpected := hsub (by rw [← hen.2]; exact List.mem_toFinset.mpr hs)
    have hall : ∀ x ∈ unionExpected, (',' : Char) ∉ x.data := by decide
    exact hall s hmem
  have hflag1 : subCL (("GPL-2.0, GPL-3.0, LGPL-2.1, AGPL-3.0").data) (pyStrOfSet e1) =
      subCL (("GPL-2.0, GPL-3.0, LGPL-2.1, AGPL-3.0").data) (pyStrOfSet e2) := by
    rw [copyleft_flag_false e1 (hcf e1 h1), copyleft_flag_false e2 (hcf e2 h2)]
  have hprop : ∀ en : List String,
      subCL (("Proprietary").data) (pyStrOfSet en) =
        en.any (fun s => subCL (("Proprietary").data) s.data) := fun en =>
    subCL_pyStrOfSet_any _ (by decide) (by decide) (by decide) (by decide)
      (by decide) (by decide) (by decide) en
  have hcc : ∀ en : List String,
      subCL (("CC-BY").data) (pyStrOfSet en) =
        en.any (fun s => subCL (("CC-BY").data) s.data) := fun en =>
    subCL_pyStrOfSet_any _ (by decide) (by decide) (by decide) (by decide)
      (by decide) (by decide) (by decide) en
  have hflag2 : subCL (("Proprietary").data) (pyStrOfSet e1) =
      subCL (("Proprietary").data) (pyStrOfSet e2) := by
    rw [hprop e1, hprop e2, perm_any hperm]
  have hflag3 : subCL (("CC-BY").data) (pyStrOfSet e1) =
      subCL (("CC-BY").data) (pyStrOfSet e2) := by
    rw [hcc e1, hcc e2, perm_any hperm]
  simp only [generate_test_summary]
  rw [hflag1, hflag2, hflag3]

theorem dump_decompose_gen (tr : TestResults) (v4 : JVal) :
    dumpJVal 0 (JVal.jobj (toJFields
      [("total_modules", JVal.jint tr.scan.total_modules),
       ("modules_tested", JVal.jint tr.scan.modules_tested),
       ("modules_loaded", JVal.jint tr.scan.modules_loaded),
       ("license_types_found", v4),
       ("test_details", JVal.jobj (toJFields
          (tr.scan.test_details.map fun kv => (kv.1, detailToJVal kv.2)))),
       ("summary", summaryToJVal tr.summary)])) =
      jsonPreChars tr ++ (dumpJVal 1 v4 ++ jsonRestChars tr) := by
  show '{' :: '\n' ::
      ((indentChars 1 ++ (escString ("total_modules") ++ ':' :: ' ' ::
(natChars tr.scan.total_modules ++ (',' :: '\n' ::
(indentChars 1 ++ (escString ("modules_tested") ++ ':' :: ' ' ::
(natChars tr.scan.modules_tested ++ (',' :: '\n' ::
(indentChars 1 ++ (escString ("modules_loaded") ++ ':' :: ' ' ::
(natChars tr.scan.modules_loaded ++ (',' :: '\n' ::
(indentChars 1 ++ (escString ("license_types_found") ++ ':' :: ' ' ::
(dumpJVal 1 v4 ++ (',' :: '\n' ::
dumpJFields 1 (toJFields
                  [("test_details", JVal.jobj (toJFields
                      (tr.scan.test_details.map fun kv => (kv.1, detailToJVal kv.2)))),
                   ("summary", summaryToJVal tr.summary)]))))))))))))))))) ++
        '\n' :: (indentChars 0 ++ ['}'])) =
      jsonPreChars tr ++ (dumpJVal 1 v4 ++ jsonRestChars tr)
  simp only [jsonPreChars, jsonRestChars, List.cons_append, List.nil_append,
    List.append_assoc]

theorem dump_decompose (tr : TestResults) (enum : List String) :
    dumpTestResults tr enum =
      jsonPreChars tr ++ (dumpJVal 1 (jStrArr enum) ++ jsonRestChars tr) :=
  dump_decompose_gen tr (jStrArr enum)

/-- C3 amended: the Markdown file is byte-for-byte identical across runs;
two runs of the same environment write JSON files that agree on everything
outside the license_types_found array (same prefix, same suffix, same
test_results value), and the arrays hold the same elements, but their order
is the iteration order of the set, which may differ between the runs. -/
theorem C3_amended_json_identical_up_to_set_order :
    ∀ (env : PyEnv) (e1 e2 : List String),
      validEnum e1 (scanLoop env discover_license_test_modules).license_types_found →
      validEnum e2 (scanLoop env discover_license_test_modules).license_types_found →
      (pyMain env e1).mdFileContent = (pyMain env e2).mdFileContent ∧
      e1.Perm e2 ∧
      run_license_detection_tests env e1 = run_license_detection_tests env e2 ∧
      (pyMain env e1).jsonFileContent =
        jsonPreChars (run_license_detection_tests env e1) ++
          (dumpJVal 1 (jStrArr e1) ++
            jsonRestChars (run_license_detection_tests env e1)) ∧
      (pyMain env e2).jsonFileContent =
        jsonPreChars (run_license_detection_tests env e1) ++
          (dumpJVal 1 (jStrArr e2) ++
            jsonRestChars (run_license_detection_tests env e1)) := by
  intro env e1 e2 h1 h2
  have hsub : (scanLoop env discover_license_test_modules).license_types_found ⊆
      unionExpected := lts_subset_union env _ (fun e he => he)
  have hsum : generate_test_summary e1 (scanLoop env discover_license_test_modules) =
      generate_test_summary e2 (scanLoop env discover_license_test_modules) :=
    summary_enum_invariant _ hsub h1 h2
  have hrun : run_license_detection_tests env e1 = run_license_detection_tests env e2 := by
    show TestResults.mk (scanLoop env discover_license_test_modules)
        (generate_test_summary e1 (scanLoop env discover_license_test_modules)) =
      TestResults.mk (scanLoop env discover_license_test_modules)
        (generate_test_summary e2 (scanLoop env discover_license_test_modules))
    rw [hsum]
  refine ⟨rfl, validEnum_perm h1 h2, hrun, dump_decompose _ e1, ?_⟩
  calc (pyMain env e2).jsonFileContent
      = dumpTestResults (run_license_detection_tests env e2) e2 := rfl
    _ = jsonPreChars (run_license_detection_tests env e2) ++
          (dumpJVal 1 (jStrArr e2) ++
            jsonRestChars (run_license_detection_tests env e2)) := dump_decompose _ e2
    _ = jsonPreChars (run_license_detection_tests env e1) ++
          (dumpJVal 1 (jStrArr e2) ++
            jsonRestChars (run_license_detection_tests env e1)) := by rw [hrun]

/-- C3 amended witness: the decomposition and agreement at a concrete
environment and enumeration. -/
theorem C3_amended_witness :
    (pyMain envAllFail []).jsonFileContent =
      jsonPreChars (run_license_detection_tests envAllFail []) ++
        (dumpJVal 1 (jStrArr []) ++
          jsonRestChars (run_license_detection_tests envAllFail [])) :=
  (C3_amended_json_identical_up_to_set_order envAllFail [] []
    ⟨List.nodup_nil, by decide⟩ ⟨List.nodup_nil, by decide⟩).2.2.2.1

/-- C3 counterexample: with the repository docstrings and every import
succeeding, two legal iteration orders of the very same license set yield
different bytes in license_test_results.json (the Markdown agrees), so the
JSON file is not byte-for-byte reproducible across runs: CPython randomizes
string hashing per process, so the set order may change between runs. -/
theorem C3_counterexample_json_depends_on_set_order :
    validEnum enumOrderA
      (scanLoop realEnv discover_license_test_modules).license_types_found ∧
    validEnum enumOrderB
      (scanLoop realEnv discover_license_test_modules).license_types_found ∧
    (pyMain realEnv enumOrderA).mdFileContent =
      (pyMain realEnv enumOrderB).mdFileContent ∧
    (pyMain realEnv enumOrderA).jsonFileContent ≠
      (pyMain realEnv enumOrderB).jsonFileContent := by
  refine ⟨⟨by decide, by decide⟩, ⟨by decide, by decide⟩, rfl, ?_⟩
  intro h
  exact absurd (congrArg (List.take 130) h) (by decide)
